import Mathlib

/-!
Verification of the LooksmaxAI client workflow state machine.

The definitions below are a shallow embedding of the two client variants in
this repository:
  * `src/index.tsx` — the auth/credit/speech-enabled client (the `App`
    component): its event handlers are modelled as pure functions on a
    `Session` record, and the UI-reachable event sequences as an inductive
    `Reachable` predicate over an `applyEvent` step function.
  * `src/unnamed/part_000` — the minimal variant without auth/credits/speech;
    its `handleImprove` differs from the main client and is embedded as
    `handleImprove0`.

Asynchronous handlers (`analyzeImage`, `handleImprove`) are modelled by
splitting the synchronous prefix (everything before the first `await`) from
the continuation (`analyzeStart`/`analyzeEnd`, `improveStart`/`improveEnd`),
with the outcome of the remote call passed as an explicit parameter.  The
`Reachable` machine delivers each continuation while its stage is still
current — the race-free discipline that spec section 5 requires of the
caller; the source code does not actually guard its continuations, and the
resulting stale deliveries (a continuation firing after a reset or sign-out
abandoned its stage) are modelled by applying the continuation functions
directly to the post-reset session.  JavaScript numbers holding credit
counts are modelled as `Int` (all operations on them are integral); rating
values are modelled as `ℚ`.
-/

namespace LooksmaxAI

/-- The `AppState` union type of `src/index.tsx` (the `part_000` variant uses
the same names minus `PAYWALL`). -/
inductive AppState where
  | INITIAL
  | CAPTURING
  | ANALYZING
  | RESULTS
  | IMPROVING
  | IMPROVED
  | PAYWALL
deriving DecidableEq, Repr

/-- The `ResultsTab` union type of `src/index.tsx`. -/
inductive ResultsTab where
  | RATINGS
  | ROAST
  | IMPROVEMENTS
deriving DecidableEq, Repr

/-- The `ratings` sub-record of the `Analysis` type. -/
structure Ratings where
  overall : ℚ
  potential : ℚ
  masculinity : ℚ
  skin_quality : ℚ
  jawline : ℚ
  cheekbones : ℚ
deriving DecidableEq, Repr

/-- The `Analysis` type of both clients. -/
structure Analysis where
  ratings : Ratings
  roast : String
  improvements : List String
deriving DecidableEq, Repr

/-- The client state: one field per `useState` hook of the `App` component in
`src/index.tsx` (view-model fields that never influence the workflow, such as
`voices` and `authLoading`, are omitted), plus `streamOpen`, which models
whether `streamRef.current` holds a live `MediaStream`. -/
structure Session where
  appState : AppState
  userImage : Option String
  analysis : Option Analysis
  improvedImage : Option String
  errorMessage : Option String
  isLoading : Bool
  isSharing : Bool
  resultsTab : ResultsTab
  isSpeaking : Bool
  speakingText : Option String
  credits : Int
  userPresent : Bool
  streamOpen : Bool
deriving DecidableEq, Repr

/-- The initial values of all `useState` hooks: the session at page load. -/
def initialSession : Session where
  appState := .INITIAL
  userImage := none
  analysis := none
  improvedImage := none
  errorMessage := none
  isLoading := false
  isSharing := false
  resultsTab := .RATINGS
  isSpeaking := false
  speakingText := none
  credits := 0
  userPresent := false
  streamOpen := false

/-- Error message set by `startCamera` on `getUserMedia` failure. -/
def cameraErrorMsg : String :=
  "Camera access is required. Please enable it in your browser settings."

/-- Error message set by the `catch` block of `analyzeImage`. -/
def analysisErrorMsg : String :=
  "Failed to analyze the image. Please try again."

/-- Error message set by `handleImprove` in `src/index.tsx` when the response
carries no inline-image part (likely safety-filtered). -/
def improveSafetyMsg : String :=
  "Failed to generate the improved image. The request may have been blocked due to safety policies. Please try again."

/-- Error message set by the `catch` block of `handleImprove`. -/
def improveGenericMsg : String :=
  "Failed to generate the improved image. Please try again."

/-- Error message set by the `catch` block of `handleShareAsPDF`.  The source
string contains an apostrophe (`couldn't`), built here from its code point. -/
def pdfErrorMsg : String :=
  "Sorry, we couldn" ++ String.singleton (Char.ofNat 39) ++ "t create the PDF report."

/-- `handleReset` from `src/index.tsx`: cancels speech and resets the
workflow `useState` hooks.  It does not touch `credits`, the signed-in user,
or `streamRef` (no `cleanupCamera` call). -/
def handleReset (s : Session) : Session :=
  { s with
    appState := .INITIAL
    userImage := none
    analysis := none
    improvedImage := none
    errorMessage := none
    isLoading := false
    isSharing := false
    resultsTab := .RATINGS
    isSpeaking := false
    speakingText := none }

/-- The `onAuthStateChanged` callback from `src/index.tsx`: stores the user;
a present user gets one free credit, a signed-out user gets `credits := 0`
followed by `handleReset` (this also models `handleSignOut`, whose own
`handleReset` is idempotent with the callback's). -/
def onAuthChange (signedIn : Bool) (s : Session) : Session :=
  if signedIn then
    { s with userPresent := true, credits := 1 }
  else
    handleReset { s with userPresent := false, credits := 0 }

/-- `startCamera` from `src/index.tsx`, with the outcome of `getUserMedia`
passed as `ok`: on success the stream is stored and the state becomes
CAPTURING; on denial an error is set and the state reverts to INITIAL. -/
def startCamera (ok : Bool) (s : Session) : Session :=
  if ok then
    { s with streamOpen := true, appState := .CAPTURING }
  else
    { s with errorMessage := some cameraErrorMsg, appState := .INITIAL }

/-- `handleStart` from `src/index.tsx`: clears the error, routes a signed-in
user with zero credits to the paywall, and otherwise starts the camera. -/
def handleStart (ok : Bool) (s : Session) : Session :=
  let s1 := { s with errorMessage := none }
  if s1.credits = 0 ∧ s1.userPresent then
    { s1 with appState := .PAYWALL }
  else
    startCamera ok s1

/-- The credit decrement at the top of `analyzeImage`:
`if (credits > 0) setCredits(prev => Math.max(0, prev - 1))`. -/
def consumeCredit (c : Int) : Int :=
  if c > 0 then max 0 (c - 1) else c

/-- The synchronous prefix of `analyzeImage` (everything before the `await`):
the conditional credit decrement, `setIsLoading(true)` and `setError(null)`. -/
def analyzeStart (s : Session) : Session :=
  { s with credits := consumeCredit s.credits, isLoading := true, errorMessage := none }

/-- Outcome of the remote analysis call.  The three failure constructors all
funnel through the single `catch` block of `analyzeImage`: a network error
rejects the `await`, a schema-mismatched body makes `JSON.parse` throw, and an
empty response makes `response.text.trim()` / `JSON.parse` throw. -/
inductive AnalyzeOutcome where
  | success (a : Analysis)
  | networkError
  | parseError
  | emptyResponse
deriving DecidableEq, Repr

/-- The continuation of `analyzeImage` after the remote call resolves:
success stores the parsed analysis and moves to RESULTS; every failure sets
the generic retry message and reverts to INITIAL.  (`finally` clears
`isLoading` on both paths.) -/
def analyzeEnd (o : AnalyzeOutcome) (s : Session) : Session :=
  match o with
  | .success a =>
      { s with analysis := some a, appState := .RESULTS, isLoading := false }
  | _ =>
      { s with errorMessage := some analysisErrorMsg, appState := .INITIAL, isLoading := false }

/-- `handleCapture` from `src/index.tsx`: stores the still frame, releases the
camera (`cleanupCamera`), enters ANALYZING and synchronously starts
`analyzeImage` (whose prefix runs before the first `await`). -/
def handleCapture (img : String) (s : Session) : Session :=
  analyzeStart { s with userImage := some img, streamOpen := false, appState := .ANALYZING }

/-- The `inlineData` payload of a response part. -/
structure InlineData where
  mimeType : String
  data : String
deriving DecidableEq, Repr

/-- One part of the enhancement response: it either carries inline image
payload data or not (text parts carry none). -/
structure Part where
  inlineData : Option InlineData
deriving DecidableEq, Repr

/-- Outcome of the remote enhancement call: the call may reject (`thrown`),
return a response with no candidate, or return a candidate with a list of
parts. -/
inductive ImproveResponse where
  | thrown
  | noCandidate
  | response (parts : List Part)
deriving DecidableEq, Repr

/-- The data URL built for the improved image in both clients. -/
def mkDataUrl (d : InlineData) : String :=
  "data:" ++ d.mimeType ++ ";base64," ++ d.data

/-- The synchronous prefix of `handleImprove` in `src/index.tsx` after its
guard (everything before the `await`): `setIsLoading(true)`,
`setError(null)`, `setAppState('IMPROVING')`. -/
def improveStart (s : Session) : Session :=
  { s with isLoading := true, errorMessage := none, appState := .IMPROVING }

/-- The continuation of `handleImprove` in `src/index.tsx` after the remote
call resolves.  It scans `candidate?.content?.parts` for the first part with
`inlineData` (via `find`): if found the data URL is stored and the state
becomes IMPROVED; a missing candidate or a part-less response falls into the
safety-message branch back to RESULTS; a thrown error takes the generic
message back to RESULTS.  Note the source re-checks nothing about the current
state here: the continuation mutates whatever session it finds when the
promise settles. -/
def improveEnd (resp : ImproveResponse) (s : Session) : Session :=
  match resp with
  | .thrown =>
      { s with errorMessage := some improveGenericMsg, appState := .RESULTS, isLoading := false }
  | .noCandidate =>
      { s with errorMessage := some improveSafetyMsg, appState := .RESULTS, isLoading := false }
  | .response parts =>
      match parts.find? (fun p => p.inlineData.isSome) with
      | some p =>
          match p.inlineData with
          | some d =>
              { s with improvedImage := some (mkDataUrl d), appState := .IMPROVED,
                       isLoading := false }
          | none =>
              { s with errorMessage := some improveSafetyMsg, appState := .RESULTS,
                       isLoading := false }
      | none =>
          { s with errorMessage := some improveSafetyMsg, appState := .RESULTS,
                   isLoading := false }

/-- The whole of `handleImprove` from `src/index.tsx` when its continuation
resolves while the IMPROVING stage is still current: guard on a present image
and analysis, then prefix and continuation in sequence. -/
def handleImprove (resp : ImproveResponse) (s : Session) : Session :=
  if s.userImage = none ∨ s.analysis = none then s
  else improveEnd resp (improveStart s)

/-- `handleImprove` from `src/unnamed/part_000`: same guard and IMPROVING
entry, but the response handling differs.  The `for` loop stores the first
part with `inlineData` and `break`s; afterwards the state is set to IMPROVED
unconditionally — even when no part carried image data, in which case
`improvedImage` stays as it was and no error is set.  Accessing
`response.candidates[0]` with no candidate throws, which the `catch` block
turns into the generic message and RESULTS. -/
def handleImprove0 (resp : ImproveResponse) (s : Session) : Session :=
  if s.userImage = none ∨ s.analysis = none then s
  else
    let s1 := { s with isLoading := true, errorMessage := none, appState := .IMPROVING }
    match resp with
    | .thrown =>
        { s1 with errorMessage := some improveGenericMsg, appState := .RESULTS, isLoading := false }
    | .noCandidate =>
        { s1 with errorMessage := some improveGenericMsg, appState := .RESULTS, isLoading := false }
    | .response parts =>
        let s2 :=
          match parts.find? (fun p => p.inlineData.isSome) with
          | some p =>
              match p.inlineData with
              | some d => { s1 with improvedImage := some (mkDataUrl d) }
              | none => s1
          | none => s1
        { s2 with appState := .IMPROVED, isLoading := false }

/-- The argument of `handlePurchase`: a finite scan bundle or `'unlimited'`. -/
inductive Plan where
  | scans (n : ℕ)
  | unlimited
deriving DecidableEq, Repr

/-- `handlePurchase` from `src/index.tsx`: `'unlimited'` sets the `-1`
sentinel, a finite plan adds its scan count, then the camera is started. -/
def handlePurchase (plan : Plan) (ok : Bool) (s : Session) : Session :=
  let s1 :=
    match plan with
    | .unlimited => { s with credits := -1 }
    | .scans n => { s with credits := s.credits + n }
  startCamera ok s1

/-- `handleShareAsPDF` from `src/index.tsx` (same guard in `part_000`): if
analysis, before-image or after-image is missing it returns immediately; the
produced document is abstracted to `Option Unit` (`some ()` means a PDF was
saved).  On a layout/encoding failure the `catch` sets the PDF error message
and no file is offered; `finally` clears `isSharing` on both paths. -/
def handleShareAsPDF (ok : Bool) (s : Session) : Session × Option Unit :=
  if s.analysis = none ∨ s.userImage = none ∨ s.improvedImage = none then (s, none)
  else if ok then ({ s with isSharing := false }, some ())
  else ({ s with errorMessage := some pdfErrorMsg, isSharing := false }, none)

/-- The user/browser events that drive the `src/index.tsx` state machine.
Remote-call outcomes travel with the triggering event (`start`, `purchase`)
when the handler awaits them inline; the two long-running calls are split:
`capture` starts the analysis (running its synchronous prefix) and
`analyzeResult` delivers its outcome, `improve` starts the enhancement and
`improveResult` delivers its outcome. -/
inductive Event where
  | authChange (signedIn : Bool)
  | start (cameraOk : Bool)
  | purchase (plan : Plan) (cameraOk : Bool)
  | capture (img : String)
  | analyzeResult (o : AnalyzeOutcome)
  | improve
  | improveResult (resp : ImproveResponse)
  | share (ok : Bool)
  | reset
deriving Repr

/-- Dispatch of each event to the handler embedded above.  The `improve`
event runs the guard and synchronous prefix of `handleImprove`. -/
def applyEvent (e : Event) (s : Session) : Session :=
  match e with
  | .authChange b => onAuthChange b s
  | .start ok => handleStart ok s
  | .purchase plan ok => handlePurchase plan ok s
  | .capture img => handleCapture img s
  | .analyzeResult o => analyzeEnd o s
  | .improve => if s.userImage = none ∨ s.analysis = none then s else improveStart s
  | .improveResult resp => improveEnd resp s
  | .share ok => (handleShareAsPDF ok s).1
  | .reset => handleReset s

/-- Which events the rendered UI can fire in each state: the start button
exists only in the INITIAL view of a signed-in user, capture only in
CAPTURING, the improve button only in RESULTS, the share button only in
IMPROVED, purchase buttons only in PAYWALL; auth changes and reset
(Start Over / Not now / sign out) are available everywhere.

The resolution events are delivered only while their stage is current
(`analyzeResult` in ANALYZING, `improveResult` in IMPROVING): this is the
race-free discipline of spec section 5, under which a continuation whose
stage was abandoned (reset or sign-out while the call was in flight) is
dropped.  The source itself does NOT enforce this: `analyzeImage` and
`handleImprove` mutate whatever session exists when their promise settles,
so `Reachable` covers exactly the executions in which no remote call
outlives its stage; stale deliveries are modelled by applying `analyzeEnd` /
`improveEnd` directly to the post-reset session (see the stale-response
theorem below). -/
def enabled (e : Event) (s : Session) : Bool :=
  match e with
  | .authChange _ => true
  | .start _ => s.appState == .INITIAL && s.userPresent
  | .purchase _ _ => s.appState == .PAYWALL
  | .capture _ => s.appState == .CAPTURING
  | .analyzeResult _ => s.appState == .ANALYZING
  | .improve => s.appState == .RESULTS
  | .improveResult _ => s.appState == .IMPROVING
  | .share _ => s.appState == .IMPROVED
  | .reset => true

/-- The session states reachable from page load through enabled events,
i.e. through the race-free executions described at `enabled`. -/
inductive Reachable : Session → Prop where
  | init : Reachable initialSession
  | step (e : Event) {s : Session} :
      Reachable s → enabled e s = true → Reachable (applyEvent e s)

/-- The inductive invariant of the `src/index.tsx` machine: results-bearing
states hold both the captured image and the analysis; the enhanced image
exists only in IMPROVED; pre-results states hold no analysis; ANALYZING holds
the captured image; and the credit balance never drops below the `-1`
sentinel. -/
def Inv (s : Session) : Prop :=
  ((s.appState = .RESULTS ∨ s.appState = .IMPROVING ∨ s.appState = .IMPROVED) →
      s.userImage.isSome = true ∧ s.analysis.isSome = true)
  ∧ (s.improvedImage.isSome = true → s.appState = .IMPROVED)
  ∧ ((s.appState = .INITIAL ∨ s.appState = .CAPTURING ∨ s.appState = .ANALYZING ∨
        s.appState = .PAYWALL) → s.analysis = none)
  ∧ -1 ≤ s.credits
  ∧ (s.appState = .ANALYZING → s.userImage.isSome = true)

theorem inv_initialSession : Inv initialSession := by
  constructor <;> simp [initialSession, Inv]

theorem inv_applyEvent (e : Event) (s : Session) (hInv : Inv s)
    (he : enabled e s = true) : Inv (applyEvent e s) := by
  obtain ⟨h1, h2, h3, h4, h5⟩ := hInv
  cases e with
  | authChange b =>
    cases b with
    | false =>
      refine ⟨?_, ?_, ?_, ?_, ?_⟩ <;>
        simp [applyEvent, onAuthChange, handleReset]
    | true =>
      refine ⟨?_, ?_, ?_, ?_, ?_⟩
      · simpa [applyEvent, onAuthChange] using h1
      · simpa [applyEvent, onAuthChange] using h2
      · simpa [applyEvent, onAuthChange] using h3
      · simp [applyEvent, onAuthChange]
      · simpa [applyEvent, onAuthChange] using h5
  | start ok =>
    simp only [enabled, Bool.and_eq_true, beq_iff_eq] at he
    obtain ⟨hst, _⟩ := he
    by_cases hp : ({ s with errorMessage := none } : Session).credits = 0 ∧
        ({ s with errorMessage := none } : Session).userPresent
    · refine ⟨?_, ?_, ?_, ?_, ?_⟩ <;>
        simp_all [applyEvent, handleStart, hp, startCamera]
    · cases ok with
      | true =>
        refine ⟨?_, ?_, ?_, ?_, ?_⟩ <;>
          simp_all [applyEvent, handleStart, hp, startCamera]
      | false =>
        refine ⟨?_, ?_, ?_, ?_, ?_⟩ <;>
          simp_all [applyEvent, handleStart, hp, startCamera]
  | purchase plan ok =>
    simp only [enabled, beq_iff_eq] at he
    have hana : s.analysis = none := h3 (Or.inr (Or.inr (Or.inr he)))
    have himp : ¬s.improvedImage.isSome = true := fun hi => by
      rw [h2 hi] at he; exact absurd he (by simp)
    cases plan with
    | scans n =>
      cases ok with
      | true =>
        refine ⟨?_, ?_, ?_, ?_, ?_⟩ <;>
          simp_all [applyEvent, handlePurchase, startCamera]
        all_goals omega
      | false =>
        refine ⟨?_, ?_, ?_, ?_, ?_⟩ <;>
          simp_all [applyEvent, handlePurchase, startCamera]
        all_goals omega
    | unlimited =>
      cases ok with
      | true =>
        refine ⟨?_, ?_, ?_, ?_, ?_⟩ <;>
          simp_all [applyEvent, handlePurchase, startCamera]
      | false =>
        refine ⟨?_, ?_, ?_, ?_, ?_⟩ <;>
          simp_all [applyEvent, handlePurchase, startCamera]
  | capture img =>
    simp only [enabled, beq_iff_eq] at he
    have hana : s.analysis = none := h3 (Or.inr (Or.inl he))
    have himp : ¬s.improvedImage.isSome = true := fun hi => by
      rw [h2 hi] at he; exact absurd he (by simp)
    refine ⟨?_, ?_, ?_, ?_, ?_⟩ <;>
      simp_all [applyEvent, handleCapture, analyzeStart, consumeCredit]
    split <;> omega
  | analyzeResult o =>
    simp only [enabled, beq_iff_eq] at he
    have hana : s.analysis = none := h3 (Or.inr (Or.inr (Or.inl he)))
    have himg : s.userImage.isSome = true := h5 he
    have himp : ¬s.improvedImage.isSome = true := fun hi => by
      rw [h2 hi] at he; exact absurd he (by simp)
    cases o with
    | success a =>
      refine ⟨?_, ?_, ?_, ?_, ?_⟩ <;>
        simp_all [applyEvent, analyzeEnd]
    | networkError =>
      refine ⟨?_, ?_, ?_, ?_, ?_⟩ <;>
        simp_all [applyEvent, analyzeEnd]
    | parseError =>
      refine ⟨?_, ?_, ?_, ?_, ?_⟩ <;>
        simp_all [applyEvent, analyzeEnd]
    | emptyResponse =>
      refine ⟨?_, ?_, ?_, ?_, ?_⟩ <;>
        simp_all [applyEvent, analyzeEnd]
  | improve =>
    simp only [enabled, beq_iff_eq] at he
    obtain ⟨himg, hana⟩ := h1 (Or.inl he)
    have himpn : s.improvedImage = none := by
      rcases hio : s.improvedImage with _ | v
      · rfl
      · have h := h2 (by simp [hio])
        rw [h] at he
        exact absurd he (by simp)
    have hguard : ¬(s.userImage = none ∨ s.analysis = none) := by
      rcases himg' : s.userImage with _ | v
      · rw [himg'] at himg; exact absurd himg (by simp)
      · rcases hana' : s.analysis with _ | a
        · rw [hana'] at hana; exact absurd hana (by simp)
        · simp
    refine ⟨?_, ?_, ?_, ?_, ?_⟩ <;>
      simp [applyEvent, improveStart, hguard, himg, hana, h4, himpn]
  | improveResult resp =>
    simp only [enabled, beq_iff_eq] at he
    obtain ⟨himg, hana⟩ := h1 (Or.inr (Or.inl he))
    have himpn : s.improvedImage = none := by
      rcases hio : s.improvedImage with _ | v
      · rfl
      · have h := h2 (by simp [hio])
        rw [h] at he
        exact absurd he (by simp)
    cases resp with
    | thrown =>
      refine ⟨?_, ?_, ?_, ?_, ?_⟩ <;>
        simp_all [applyEvent, improveEnd]
    | noCandidate =>
      refine ⟨?_, ?_, ?_, ?_, ?_⟩ <;>
        simp_all [applyEvent, improveEnd]
    | response parts =>
      rcases hfind : parts.find? (fun p => p.inlineData.isSome) with _ | p
      · refine ⟨?_, ?_, ?_, ?_, ?_⟩ <;>
          simp [applyEvent, improveEnd, hfind, himg, hana, h4, himpn]
      · have hps : p.inlineData.isSome = true := by
          have h := List.find?_some hfind
          simpa using h
        rcases hpd : p.inlineData with _ | d
        · rw [hpd] at hps; exact absurd hps (by simp)
        · refine ⟨?_, ?_, ?_, ?_, ?_⟩ <;>
            simp [applyEvent, improveEnd, hfind, hpd, himg, hana, h4, himpn]
  | share ok =>
    simp only [enabled, beq_iff_eq] at he
    by_cases hguard : s.analysis = none ∨ s.userImage = none ∨ s.improvedImage = none
    · refine ⟨?_, ?_, ?_, ?_, ?_⟩ <;>
        simp_all [applyEvent, handleShareAsPDF, hguard]
    · cases ok with
      | true =>
        refine ⟨?_, ?_, ?_, ?_, ?_⟩ <;>
          simp_all [applyEvent, handleShareAsPDF, hguard]
      | false =>
        refine ⟨?_, ?_, ?_, ?_, ?_⟩ <;>
          simp_all [applyEvent, handleShareAsPDF, hguard]
  | reset =>
    refine ⟨?_, ?_, ?_, ?_, ?_⟩ <;>
      simp [applyEvent, handleReset, h4]

/-- Every reachable session state satisfies the inductive invariant. -/
theorem reachable_inv {s : Session} (h : Reachable s) : Inv s := by
  induction h with
  | init => exact inv_initialSession
  | step e hr he ih => exact inv_applyEvent e _ ih he

/-! ### Speech voice selection (`handleToggleSpeech` in `src/index.tsx`) -/

/-- A `SpeechSynthesisVoice`: the two fields the selection logic reads. -/
structure Voice where
  name : String
  lang : String
deriving DecidableEq, Repr

/-- Whether the character list `l` starts with `sub`. -/
def startsWithL : List Char → List Char → Bool
  | _, [] => true
  | [], _ :: _ => false
  | a :: as, b :: bs => a == b && startsWithL as bs

/-- Whether `sub` occurs as a contiguous run inside `l` (JavaScript
`String.prototype.includes`). -/
def containsL : List Char → List Char → Bool
  | [], sub => sub.isEmpty
  | a :: as, sub => startsWithL (a :: as) sub || containsL as sub

/-- `v.name.toLowerCase().includes('female')`. -/
def nameHasFemale (v : Voice) : Bool :=
  containsL v.name.toLower.toList "female".toList

/-- Level 1: `v.name === 'Google US English' && v.lang.startsWith('en')`. -/
def voicePred1 (v : Voice) : Bool :=
  v.name == "Google US English" && v.lang.startsWith "en"

/-- Level 2: US-English voice marked female. -/
def voicePred2 (v : Voice) : Bool :=
  v.lang.startsWith "en-US" && nameHasFemale v

/-- Level 3: English voice marked female. -/
def voicePred3 (v : Voice) : Bool :=
  v.lang.startsWith "en" && nameHasFemale v

/-- Level 4: any US-English voice. -/
def voicePred4 (v : Voice) : Bool :=
  v.lang.startsWith "en-US"

/-- Level 5: any English voice. -/
def voicePred5 (v : Voice) : Bool :=
  v.lang.startsWith "en"

/-- The voice chosen by `handleToggleSpeech`: the chain of
`voices.find(...)` calls with each level tried only when every earlier level
found nothing.  `none` means `utterance.voice` is left unset and the engine
default speaks. -/
def selectVoice (voices : List Voice) : Option Voice :=
  match voices.find? voicePred1 with
  | some v => some v
  | none =>
    match voices.find? voicePred2 with
    | some v => some v
    | none =>
      match voices.find? voicePred3 with
      | some v => some v
      | none =>
        match voices.find? voicePred4 with
        | some v => some v
        | none => voices.find? voicePred5

/-- Modelled from the spec: the descending preference order over predicates;
the selected voice is the first voice in the list satisfying the
highest-priority predicate that matches anything, else the engine default. -/
def voicePriority : List (Voice → Bool) :=
  [voicePred1, voicePred2, voicePred3, voicePred4, voicePred5]

/-- Modelled from the spec: pick the highest-priority predicate with any
match in the list, then the first voice satisfying it. -/
def selectVoiceSpec (voices : List Voice) : Option Voice :=
  match voicePriority.find? (fun p => voices.any p) with
  | some p => voices.find? p
  | none => none

/-! ### Rating bars and color tiers -/

/-- `getColorForRating` from `src/index.tsx` (CSS custom-property tiers). -/
def getColorForRating (rating : ℚ) : String :=
  if rating ≥ 80 then "var(--rating-green)"
  else if rating ≥ 60 then "var(--rating-yellow)"
  else if rating ≥ 40 then "var(--rating-orange)"
  else "var(--rating-red)"

/-- `getColorForRatingPDF` from `handleShareAsPDF` in `src/index.tsx`
(hex color tiers). -/
def getColorForRatingPDF (rating : ℚ) : String :=
  if rating ≥ 80 then "#34c759"
  else if rating ≥ 60 then "#ffcc00"
  else if rating ≥ 40 then "#ff9500"
  else "#ff3b30"

/-- The PDF rating bar's total width (`const barWidth = 80`). -/
def pdfBarTotalWidth : ℚ := 80

/-- The PDF bar fill width: `barWidth * (value / 100)`. -/
def pdfBarFillWidth (value : ℚ) : ℚ :=
  pdfBarTotalWidth * (value / 100)

/-- The CSS bar fill, in percent of the bar: `width: value%`. -/
def cssBarFillPercent (value : ℚ) : ℚ := value

/-! ### A concrete scenario trace, shared by several witnesses -/

/-- A sample parsed analysis payload. -/
def sampleAnalysis : Analysis where
  ratings :=
    { overall := 40, potential := 50, masculinity := 60, skin_quality := 70,
      jawline := 80, cheekbones := 90 }
  roast := "roast"
  improvements := ["A", "B"]

/-- Session after sign-in (one free credit). -/
def sAuth : Session := applyEvent (.authChange true) initialSession

/-- Session after pressing start with the camera granted. -/
def sCapturing : Session := applyEvent (.start true) sAuth

/-- Session after capturing a frame (analysis request in flight). -/
def sAnalyzing : Session := applyEvent (.capture "img") sCapturing

/-- Session after the analysis call succeeds. -/
def sResults : Session := applyEvent (.analyzeResult (.success sampleAnalysis)) sAnalyzing

/-- Session after pressing the improve button (enhancement in flight). -/
def sImproving : Session := applyEvent .improve sResults

theorem reach_sAuth : Reachable sAuth :=
  .step _ .init rfl

theorem reach_sCapturing : Reachable sCapturing :=
  .step _ reach_sAuth rfl

theorem reach_sAnalyzing : Reachable sAnalyzing :=
  .step _ reach_sCapturing rfl

theorem reach_sResults : Reachable sResults :=
  .step _ reach_sAnalyzing rfl

theorem reach_sImproving : Reachable sImproving :=
  .step _ reach_sResults rfl

/-! ### Claim theorems -/

/-- C1 counterexample: an analysis attempt that fails does NOT leave the
credit balance unchanged.  After sign-in the balance is 1 (still 1 when the
frame is captured); the attempt then fails with a network error, the state
reverts to INITIAL with no analysis — and the balance is 0, because
`analyzeImage` decrements it before the call fires and the `catch` block never
refunds it. -/
theorem C1_failed_attempt_still_charges :
    sCapturing.credits = 1
    ∧ (applyEvent (.analyzeResult .networkError) sAnalyzing).appState = .INITIAL
    ∧ (applyEvent (.analyzeResult .networkError) sAnalyzing).analysis = none
    ∧ (applyEvent (.analyzeResult .networkError) sAnalyzing).credits = 0 :=
  ⟨rfl, rfl, rfl, rfl⟩

/-- C1 (amended): credit consumption is tied to the analysis attempt, not to
its success.  The decrement happens at the start of `analyzeImage`, before the
remote call, so after a capture and ANY outcome of the attempt the balance is
`consumeCredit` of the pre-attempt balance: a finite positive balance is
decremented by exactly one whether the attempt succeeds or fails (no refund),
and a zero or unlimited balance is unchanged in both cases. -/
theorem C1_charge_on_attempt (s : Session) (img : String) (o : AnalyzeOutcome) :
    ((applyEvent (.analyzeResult o) (applyEvent (.capture img) s)).credits
        = consumeCredit s.credits)
    ∧ (0 < s.credits →
        (applyEvent (.analyzeResult o) (applyEvent (.capture img) s)).credits
          = s.credits - 1)
    ∧ (s.credits ≤ 0 →
        (applyEvent (.analyzeResult o) (applyEvent (.capture img) s)).credits
          = s.credits) := by
  have hc : (applyEvent (.analyzeResult o) (applyEvent (.capture img) s)).credits
      = consumeCredit s.credits := by
    cases o <;> rfl
  refine ⟨hc, fun hpos => ?_, fun hz => ?_⟩
  · rw [hc]; unfold consumeCredit; rw [if_pos hpos]; omega
  · rw [hc]; unfold consumeCredit; rw [if_neg (by omega)]

theorem C1_charge_on_attempt_witness :
    (0 < sCapturing.credits)
    ∧ (applyEvent (.analyzeResult .networkError)
        (applyEvent (.capture "img") sCapturing)).credits = sCapturing.credits - 1 :=
  ⟨by decide, (C1_charge_on_attempt sCapturing "img" .networkError).2.1 (by decide)⟩

/-- C2: in `src/index.tsx` a response with no inline-image part is indeed
treated as EnhancementFailed (back to RESULTS, safety-policy message), but in
`src/unnamed/part_000` the same response moves the machine from IMPROVING to
IMPROVED with `improvedImage` still absent and no error message set — the
IMPROVED view then renders nothing.  Evaluated on a reachable RESULTS session
and a response whose only part carries no inline data. -/
theorem C2_part0_no_image_to_IMPROVED :
    (handleImprove0 (.response [{ inlineData := none }]) sResults).appState = .IMPROVED
    ∧ (handleImprove0 (.response [{ inlineData := none }]) sResults).improvedImage = none
    ∧ (handleImprove0 (.response [{ inlineData := none }]) sResults).errorMessage = none
    ∧ (handleImprove (.response [{ inlineData := none }]) sResults).appState = .RESULTS
    ∧ (handleImprove (.response [{ inlineData := none }]) sResults).improvedImage = none
    ∧ (handleImprove (.response [{ inlineData := none }]) sResults).errorMessage
        = some improveSafetyMsg
    ∧ improveSafetyMsg ≠ improveGenericMsg :=
  ⟨rfl, rfl, rfl, rfl, rfl, rfl, by decide⟩

/-- C3 counterexample: reset does not return every session field to its
initial value — after sign-in the (reachable) session holds 1 credit, and
`handleReset` leaves that balance (and the signed-in user) in place, so the
result differs from the full-default session. -/
theorem C3_reset_keeps_credits :
    Reachable sAuth
    ∧ sAuth.credits = 1
    ∧ (handleReset sAuth).credits = 1
    ∧ initialSession.credits = 0
    ∧ handleReset sAuth ≠ initialSession :=
  ⟨reach_sAuth, rfl, rfl, rfl, by decide⟩

/-- C3 (amended): reset is total and idempotent, and from any session state it
returns `appState` to INITIAL, clears the captured image, the analysis, the
enhanced image, the error message, the loading/sharing flags, the results tab
and any active speech — but it preserves the credit counter (cleared only on
sign-out), the signed-in user, and the camera-stream handle. -/
theorem C3_reset_idempotent_total (s : Session) :
    (handleReset s).appState = .INITIAL
    ∧ (handleReset s).userImage = none
    ∧ (handleReset s).analysis = none
    ∧ (handleReset s).improvedImage = none
    ∧ (handleReset s).errorMessage = none
    ∧ (handleReset s).isLoading = false
    ∧ (handleReset s).isSharing = false
    ∧ (handleReset s).resultsTab = .RATINGS
    ∧ (handleReset s).isSpeaking = false
    ∧ (handleReset s).speakingText = none
    ∧ (handleReset s).credits = s.credits
    ∧ (handleReset s).userPresent = s.userPresent
    ∧ (handleReset s).streamOpen = s.streamOpen
    ∧ handleReset (handleReset s) = handleReset s :=
  ⟨rfl, rfl, rfl, rfl, rfl, rfl, rfl, rfl, rfl, rfl, rfl, rfl, rfl, rfl⟩

/-- The session produced when the analysis success continuation fires after
a sign-out that occurred while the call was in flight: sign-out runs
`handleReset` (clearing the captured image), then the unguarded continuation
of `analyzeImage` still stores the analysis and sets RESULTS. -/
def staleAnalysisResults : Session :=
  analyzeEnd (.success sampleAnalysis) (onAuthChange false sAnalyzing)

/-- The session produced when the enhancement success continuation fires
after a sign-out that occurred while the call was in flight: sign-out runs
`handleReset` (clearing image and analysis), then the unguarded continuation
of `handleImprove` still stores the enhanced image and sets IMPROVED. -/
def staleImproveImproved : Session :=
  improveEnd (.response [{ inlineData := some { mimeType := "image/png", data := "d" } }])
    (onAuthChange false sImproving)

/-- C4: the claimed invariant fails in the real program, because the success
continuations of `analyzeImage` and `handleImprove` run with no guard on the
current state, while the sign-out button (and hence `handleReset`) is
available in every state.  Signing out while the analysis call is in flight
and letting its continuation fire yields a RESULTS state with no captured
image; signing out while the enhancement call is in flight and letting its
continuation fire yields an IMPROVED state with neither captured image nor
analysis.  Both pre-race states (`sAnalyzing`, `sImproving`) are reachable. -/
theorem C4_stale_response_breaks_invariant :
    (staleAnalysisResults.appState = .RESULTS
      ∧ staleAnalysisResults.userImage = none
      ∧ staleAnalysisResults.analysis = some sampleAnalysis)
    ∧ (staleImproveImproved.appState = .IMPROVED
      ∧ staleImproveImproved.userImage = none
      ∧ staleImproveImproved.analysis = none
      ∧ staleImproveImproved.improvedImage.isSome = true)
    ∧ Reachable sAnalyzing ∧ Reachable sImproving :=
  ⟨⟨rfl, rfl, rfl⟩, ⟨rfl, rfl, rfl, rfl⟩, reach_sAnalyzing, reach_sImproving⟩

/-- C5: from any reachable ANALYZING state, every failing analysis outcome
(network failure, parse failure, or empty response) is handled uniformly by
the single `catch` block: the state reverts to INITIAL, the generic
retry-suggesting message is set, and the analysis field remains absent. -/
theorem C5_analysis_failure_uniform (s : Session) (h : Reachable s)
    (ha : s.appState = .ANALYZING) (o : AnalyzeOutcome)
    (hfail : ∀ a, o ≠ .success a) :
    (applyEvent (.analyzeResult o) s).appState = .INITIAL
    ∧ (applyEvent (.analyzeResult o) s).errorMessage = some analysisErrorMsg
    ∧ (applyEvent (.analyzeResult o) s).analysis = none := by
  have hana : s.analysis = none :=
    (reachable_inv h).2.2.1 (Or.inr (Or.inr (Or.inl ha)))
  cases o with
  | success a => exact absurd rfl (hfail a)
  | networkError => exact ⟨rfl, rfl, hana⟩
  | parseError => exact ⟨rfl, rfl, hana⟩
  | emptyResponse => exact ⟨rfl, rfl, hana⟩

theorem C5_analysis_failure_uniform_witness :
    (applyEvent (.analyzeResult .parseError) sAnalyzing).appState = .INITIAL
    ∧ (applyEvent (.analyzeResult .parseError) sAnalyzing).errorMessage
        = some analysisErrorMsg
    ∧ (applyEvent (.analyzeResult .parseError) sAnalyzing).analysis = none :=
  C5_analysis_failure_uniform sAnalyzing reach_sAnalyzing rfl .parseError
    (fun _ h => nomatch h)

/-- C6: sign-in sets the balance to exactly 1; a finite purchase adds exactly
its scan count; an unlimited purchase sets the `-1` sentinel; consuming at the
sentinel or at 0 changes nothing; and on every reachable state the balance is
at least `-1`, so a finite (non-sentinel) balance is never negative. -/
theorem C6_credit_arithmetic :
    (∀ s : Session, (onAuthChange true s).credits = 1)
    ∧ (∀ (s : Session) (n : ℕ) (ok : Bool),
        (handlePurchase (.scans n) ok s).credits = s.credits + n)
    ∧ (∀ (s : Session) (ok : Bool), (handlePurchase .unlimited ok s).credits = -1)
    ∧ consumeCredit (-1) = -1
    ∧ consumeCredit 0 = 0
    ∧ (∀ s : Session, Reachable s →
        -1 ≤ s.credits ∧ (s.credits ≠ -1 → 0 ≤ s.credits)) := by
  refine ⟨fun s => rfl, fun s n ok => ?_, fun s ok => ?_, rfl, rfl, fun s h => ?_⟩
  · cases ok <;> rfl
  · cases ok <;> rfl
  · have h4 := (reachable_inv h).2.2.2.1
    exact ⟨h4, fun hne => by omega⟩

theorem C6_credit_arithmetic_witness :
    (onAuthChange true initialSession).credits = 1
    ∧ (handlePurchase (.scans 10) true sAuth).credits = sAuth.credits + 10
    ∧ (handlePurchase .unlimited true sAuth).credits = -1
    ∧ (-1 ≤ initialSession.credits
        ∧ (initialSession.credits ≠ -1 → 0 ≤ initialSession.credits)) :=
  ⟨C6_credit_arithmetic.1 initialSession,
   C6_credit_arithmetic.2.1 sAuth 10 true,
   C6_credit_arithmetic.2.2.1 sAuth true,
   C6_credit_arithmetic.2.2.2.2.2 initialSession Reachable.init⟩

/-- C7: the camera stream is NOT released on every exit path from CAPTURING.
A signed-in user starts the camera (CAPTURING, stream open) and then resets
(Start Over / sign-out): `handleReset` never calls `cleanupCamera`, so the
resulting reachable INITIAL state still holds an open camera stream. -/
theorem C7_camera_leak_on_reset :
    Reachable (applyEvent .reset sCapturing)
    ∧ sCapturing.appState = .CAPTURING
    ∧ sCapturing.streamOpen = true
    ∧ (applyEvent .reset sCapturing).appState = .INITIAL
    ∧ (applyEvent .reset sCapturing).streamOpen = true :=
  ⟨.step .reset reach_sCapturing rfl, rfl, rfl, rfl, rfl⟩

/-- C8: for every rating value in `[0, 100]`, the color tier is chosen by the
four fixed thresholds (≥ 80 green, else ≥ 60 yellow, else ≥ 40 orange, else
red) identically in the CSS and the PDF renderer, and the bar fill width is
linear in the value scaled over 0–100 (the 80-unit PDF bar fills by
`80 · v / 100`, the CSS bar by `v` percent). -/
theorem C8_rating_bar_tiers (v : ℚ) (_h0 : 0 ≤ v) (_h100 : v ≤ 100) :
    ((80 ≤ v →
        getColorForRating v = "var(--rating-green)"
          ∧ getColorForRatingPDF v = "#34c759")
      ∧ (60 ≤ v → v < 80 →
        getColorForRating v = "var(--rating-yellow)"
          ∧ getColorForRatingPDF v = "#ffcc00")
      ∧ (40 ≤ v → v < 60 →
        getColorForRating v = "var(--rating-orange)"
          ∧ getColorForRatingPDF v = "#ff9500")
      ∧ (v < 40 →
        getColorForRating v = "var(--rating-red)"
          ∧ getColorForRatingPDF v = "#ff3b30"))
    ∧ pdfBarFillWidth v = (4 / 5) * v
    ∧ (∀ a b : ℚ, pdfBarFillWidth (a + b) = pdfBarFillWidth a + pdfBarFillWidth b)
    ∧ pdfBarFillWidth 0 = 0
    ∧ pdfBarFillWidth 100 = pdfBarTotalWidth
    ∧ cssBarFillPercent v = 100 * (v / 100) := by
  refine ⟨⟨?_, ?_, ?_, ?_⟩, ?_, ?_, ?_, ?_, ?_⟩
  · intro h80
    unfold getColorForRating getColorForRatingPDF
    rw [if_pos h80, if_pos h80]
    exact ⟨rfl, rfl⟩
  · intro h60 h80
    unfold getColorForRating getColorForRatingPDF
    rw [if_neg (not_le.mpr h80), if_pos h60, if_neg (not_le.mpr h80), if_pos h60]
    exact ⟨rfl, rfl⟩
  · intro h40 h60
    have n80 : ¬v ≥ 80 := not_le.mpr (by linarith)
    unfold getColorForRating getColorForRatingPDF
    rw [if_neg n80, if_neg (not_le.mpr h60), if_pos h40, if_neg n80,
      if_neg (not_le.mpr h60), if_pos h40]
    exact ⟨rfl, rfl⟩
  · intro h40
    have n80 : ¬v ≥ 80 := not_le.mpr (by linarith)
    have n60 : ¬v ≥ 60 := not_le.mpr (by linarith)
    unfold getColorForRating getColorForRatingPDF
    rw [if_neg n80, if_neg n60, if_neg (not_le.mpr h40), if_neg n80, if_neg n60,
      if_neg (not_le.mpr h40)]
    exact ⟨rfl, rfl⟩
  · unfold pdfBarFillWidth pdfBarTotalWidth; ring
  · intro a b; unfold pdfBarFillWidth; ring
  · unfold pdfBarFillWidth; ring
  · unfold pdfBarFillWidth pdfBarTotalWidth; norm_num
  · unfold cssBarFillPercent; ring

theorem C8_rating_bar_tiers_witness :
    (0 ≤ (85 : ℚ)) ∧ ((85 : ℚ) ≤ 100)
    ∧ getColorForRating 85 = "var(--rating-green)"
    ∧ getColorForRatingPDF 85 = "#34c759"
    ∧ pdfBarFillWidth 85 = (4 / 5) * 85 :=
  ⟨by norm_num, by norm_num,
   ((C8_rating_bar_tiers 85 (by norm_num) (by norm_num)).1.1 (by norm_num)).1,
   ((C8_rating_bar_tiers 85 (by norm_num) (by norm_num)).1.1 (by norm_num)).2,
   (C8_rating_bar_tiers 85 (by norm_num) (by norm_num)).2.1⟩

theorem find?_none_any {α : Type} (l : List α) (p : α → Bool)
    (h : l.find? p = none) : l.any p = false := by
  rw [List.any_eq_false]
  intro x hx
  exact (List.find?_eq_none.mp h) x hx

theorem find?_some_any {α : Type} (l : List α) (p : α → Bool) (v : α)
    (h : l.find? p = some v) : l.any p = true := by
  rw [List.any_eq_true]
  exact ⟨v, List.mem_of_find?_eq_some h, List.find?_some h⟩

/-- C9: the voice chosen by `handleToggleSpeech` agrees with the spec-side
selector: the predicates are tried in fixed descending preference (exact name
match on the designated US-English voice, US-English female, English female,
any US English, any English) and the first voice in the list satisfying the
highest-priority predicate that matches anything is chosen; if no predicate
matches, no voice is assigned and the engine default is used. -/
theorem C9_voice_selection (voices : List Voice) :
    selectVoice voices = selectVoiceSpec voices := by
  unfold selectVoice selectVoiceSpec voicePriority
  rcases h1 : voices.find? voicePred1 with _ | v1
  · rcases h2 : voices.find? voicePred2 with _ | v2
    · rcases h3 : voices.find? voicePred3 with _ | v3
      · rcases h4 : voices.find? voicePred4 with _ | v4
        · rcases h5 : voices.find? voicePred5 with _ | v5
          · simp [List.find?, find?_none_any _ _ h1, find?_none_any _ _ h2,
              find?_none_any _ _ h3, find?_none_any _ _ h4, find?_none_any _ _ h5, h5]
          · simp [List.find?, find?_none_any _ _ h1, find?_none_any _ _ h2,
              find?_none_any _ _ h3, find?_none_any _ _ h4,
              find?_some_any _ _ _ h5, h5]
        · simp [List.find?, find?_none_any _ _ h1, find?_none_any _ _ h2,
            find?_none_any _ _ h3, find?_some_any _ _ _ h4, h4]
      · simp [List.find?, find?_none_any _ _ h1, find?_none_any _ _ h2,
          find?_some_any _ _ _ h3, h3]
    · simp [List.find?, find?_none_any _ _ h1, find?_some_any _ _ _ h2, h2]
  · simp [List.find?, find?_some_any _ _ _ h1, h1]

/-- C10: if the analysis, the before-image or the after-image is absent, the
export operation returns immediately: no document is produced and the session
is returned unchanged (every field, including the sharing flag). -/
theorem C10_export_guard (ok : Bool) (s : Session)
    (h : s.analysis = none ∨ s.userImage = none ∨ s.improvedImage = none) :
    handleShareAsPDF ok s = (s, none) := by
  unfold handleShareAsPDF
  rw [if_pos h]

theorem C10_export_guard_witness :
    (initialSession.analysis = none ∨ initialSession.userImage = none ∨
        initialSession.improvedImage = none)
    ∧ handleShareAsPDF true initialSession = (initialSession, none) :=
  ⟨Or.inl rfl, C10_export_guard true initialSession (Or.inl rfl)⟩

end LooksmaxAI
